import Mathlib

/-!
Verification development for the agent-framework getting-started samples
(`query_generator_workflow/workflow.py`, `story_workflow/workflow.py`,
`weather_agent/agent.py`, `query_generator_workflow/__init__.py`).

The samples are configuration glue over an external agent-orchestration
library.  The embedding below translates, from the Python source:
  * the Python string operations used by `ValidationAggregator.aggregate`
    (`str.replace("_", " ")`, `str.title()`, `"sep".join(...)`, f-strings),
  * the `aggregate` handler itself, as a pure function from the list of
    incoming `AgentExecutorResponse` values to the list of messages it
    sends on its workflow context,
  * the `get_weather` tool, with the two `randint` draws made explicit
    parameters and the list indexing made fallible (`Option`),
  * the agent and workflow declarations of every module, and
  * a statement-level transcription of each module's assignment targets,
    used for the construction-once invariant.
The `WorkflowBuilder`, `serve` entry point and chat-client identity are
owned by the framework itself, whose sources are not part of the sample
tree; those pieces are modelled from the specification document and are
marked as such in their doc comments.
-/

/-- Python `str.replace("_", " ")` for the one-character pattern used in
`aggregate`: every underscore character becomes a space. -/
def replaceUnderscores (s : String) : String :=
  ⟨s.data.map fun c => if c = '_' then ' ' else c⟩

/-- Worker for `pyTitle`: walks the characters tracking whether the
previous character was cased (a letter).  A letter after a non-letter is
uppercased; a letter after a letter is lowercased; non-letters pass
through and reset the flag.  This is CPython's `str.title` algorithm
restricted to ASCII letters. -/
def pyTitleAux : Bool → List Char → List Char
  | _, [] => []
  | prevCased, c :: cs =>
    if c.isAlpha then
      (if prevCased then c.toLower else c.toUpper) :: pyTitleAux true cs
    else
      c :: pyTitleAux false cs

/-- Python `str.title()`. -/
def pyTitle (s : String) : String :=
  ⟨pyTitleAux false s.data⟩

/-- Python `sep.join(parts)`: empty for `[]`, the single element for a
singleton, and elements interleaved with `sep` otherwise. -/
def pyJoin (sep : String) : List String → String
  | [] => ""
  | [s] => s
  | s :: rest => s ++ sep ++ pyJoin sep rest

/-- The `text` field of `agent_framework.AgentRunResponse`, the only field
`aggregate` reads. -/
structure AgentRunResponse where
  text : String
deriving DecidableEq, Repr

/-- The fields of `agent_framework.AgentExecutorResponse` read by
`aggregate`: the id of the executor that produced the response and the
run response carrying the already-computed text. -/
structure AgentExecutorResponse where
  executor_id : String
  agent_run_response : AgentRunResponse
deriving DecidableEq, Repr

/-- The f-string `f"**{validator_name}**:\n{text}"` of the loop body of
`ValidationAggregator.aggregate`, where `validator_name` is
`r.executor_id.replace("_", " ").title()` and `text` is
`r.agent_run_response.text`. -/
def formatValidation (r : AgentExecutorResponse) : String :=
  "**" ++ pyTitle (replaceUnderscores r.executor_id) ++ "**:\n"
    ++ r.agent_run_response.text

namespace ValidationAggregator

/-- `ValidationAggregator.aggregate` from
`query_generator_workflow/workflow.py`, as a pure function returning the
list of messages the handler sends on its context.  The Python builds
`validations` with a `for` loop that appends one formatted entry per
response (embedded as a left fold that pushes to the accumulator), joins
them with `"\n\n"`, wraps the result in the summary f-string, and calls
`ctx.send_message(summary)` exactly once. -/
def aggregate (results : List AgentExecutorResponse) : List String :=
  let validations : List String :=
    results.foldl
      (fun acc r =>
        let validator_name := pyTitle (replaceUnderscores r.executor_id)
        let text := r.agent_run_response.text
        acc ++ ["**" ++ validator_name ++ "**:\n" ++ text])
      []
  let combined := pyJoin "\n\n" validations
  let summary := "=== VALIDATION SUMMARY ===\n\n" ++ combined ++ "\n\n"
  [summary]

end ValidationAggregator

namespace WeatherAgent

/-- The local `conditions` list of `get_weather` in
`weather_agent/agent.py`. -/
def conditions : List String := ["sunny", "cloudy", "rainy", "stormy"]

/-- `get_weather` from `weather_agent/agent.py`.  The two `randint` draws
are explicit arguments (`c` for `randint(0, 3)`, `t` for
`randint(10, 30)`); the list indexing `conditions[c]` is fallible, so an
out-of-bounds index yields `none` (Python's `IndexError`). -/
def get_weather (location : String) (c t : Nat) : Option String :=
  match conditions.get? c with
  | none => none
  | some cond =>
    some ("The weather in " ++ location ++ " is " ++ cond
      ++ " with a high of " ++ toString t ++ "°C.")

end WeatherAgent

/-- Modelled from the spec: `AzureOpenAIChatClient` belongs to the
framework, whose sources are outside the sample tree.  The spec only
relies on which agents share "a shared chat client", so a client is
modelled by the identity of its construction site: each
`AzureOpenAIChatClient()` call in the samples yields a distinct
`instance_id`. -/
structure AzureOpenAIChatClient where
  instance_id : Nat
deriving DecidableEq, Repr

/-- The configuration fields of a `ChatAgent` construction that the
claims depend on: the agent's name, description and chat client.  The
instruction prompts and tool lists are opaque natural-language payload
and are not needed by any claim. -/
structure ChatAgent where
  name : String
  description : String
  chat_client : AzureOpenAIChatClient
deriving DecidableEq, Repr

/-- Modelled from the spec: the framework's `WorkflowBuilder` is outside
the sample tree.  Per the spec's glossary a workflow is "a declared
directed graph of agents/executors", so the builder records the declared
start executor and the declared directed edges, in declaration order;
`add_fan_out_edges src ts` declares one edge from `src` to every target
and `add_fan_in_edges ss tgt` one edge from every source to `tgt`. -/
structure WorkflowBuilder (α : Type) where
  start : Option α
  edges : List (α × α)

/-- Modelled from the spec: the built workflow, i.e. the declared graph. -/
structure Workflow (α : Type) where
  start : Option α
  edges : List (α × α)

/-- `WorkflowBuilder()`: a builder with nothing declared yet. -/
def WorkflowBuilder.empty {α : Type} : WorkflowBuilder α :=
  ⟨none, []⟩

/-- `.set_start_executor(e)`. -/
def WorkflowBuilder.set_start_executor {α : Type}
    (b : WorkflowBuilder α) (e : α) : WorkflowBuilder α :=
  ⟨some e, b.edges⟩

/-- `.add_edge(s, t)`: declares the directed edge `s → t`. -/
def WorkflowBuilder.add_edge {α : Type}
    (b : WorkflowBuilder α) (s t : α) : WorkflowBuilder α :=
  ⟨b.start, b.edges ++ [(s, t)]⟩

/-- `.add_fan_out_edges(s, ts)`: declares one edge from `s` to each
target in `ts`, in order. -/
def WorkflowBuilder.add_fan_out_edges {α : Type}
    (b : WorkflowBuilder α) (s : α) (ts : List α) : WorkflowBuilder α :=
  ⟨b.start, b.edges ++ ts.map fun t => (s, t)⟩

/-- `.add_fan_in_edges(ss, t)`: declares one edge from each source in
`ss` to `t`, in order. -/
def WorkflowBuilder.add_fan_in_edges {α : Type}
    (b : WorkflowBuilder α) (ss : List α) (t : α) : WorkflowBuilder α :=
  ⟨b.start, b.edges ++ ss.map fun s => (s, t)⟩

/-- `.build()`: the declared graph. -/
def WorkflowBuilder.build {α : Type} (b : WorkflowBuilder α) : Workflow α :=
  ⟨b.start, b.edges⟩

/-- Modelled from the spec: `agent_framework.devui.serve` is outside the
sample tree; the spec describes it as launching "an HTTP development
server exposed on a local port".  A call is modelled by its arguments:
the entity list, the port, and the auto-open flag. -/
structure ServeCall (α : Type) where
  entities : List α
  port : Nat
  auto_open : Bool

namespace QueryGeneratorWorkflow

/-- The executors declared in `query_generator_workflow/workflow.py`,
named after the module-level bindings that hold them. -/
inductive QExec where
  | schemaParser
  | query_generator
  | syntax_checker
  | schema_validator
  | performance_reviewer
  | validation_aggregator
  | query_refiner
  | documentation_generator
deriving DecidableEq, Repr

/-- The single `AzureOpenAIChatClient()` constructed at the top of
`query_generator_workflow/workflow.py`. -/
def chat_client : AzureOpenAIChatClient := ⟨0⟩

/-- The `ChatAgent` the module binds as its schema-parsing agent (the
first module-level agent assignment of the file). -/
def schemaParser : ChatAgent :=
  ⟨"SchemaParser", "Analyzes database schema structure", chat_client⟩

/-- `query_generator = ChatAgent(...)`. -/
def query_generator : ChatAgent :=
  ⟨"QueryGenerator",
   "Generates SQL query from schema analysis and description", chat_client⟩

/-- `syntax_checker = ChatAgent(...)`. -/
def syntax_checker : ChatAgent :=
  ⟨"SyntaxChecker", "Validates SQL syntax", chat_client⟩

/-- `schema_validator = ChatAgent(...)`. -/
def schema_validator : ChatAgent :=
  ⟨"SchemaValidator", "Validates query matches schema", chat_client⟩

/-- `performance_reviewer = ChatAgent(...)`. -/
def performance_reviewer : ChatAgent :=
  ⟨"PerformanceReviewer", "Reviews query performance", chat_client⟩

/-- `query_refiner = ChatAgent(...)`. -/
def query_refiner : ChatAgent :=
  ⟨"QueryRefiner", "Refines query based on validation feedback", chat_client⟩

/-- `documentation_generator = ChatAgent(...)`. -/
def documentation_generator : ChatAgent :=
  ⟨"FinalSQLOutput", "Outputs only the final clean SQL query", chat_client⟩

/-- The `ChatAgent` constructions of the query-generator module, in
source order.  (`validation_aggregator` is a custom `Executor`, not a
`ChatAgent`, and takes no chat client.) -/
def agents : List ChatAgent :=
  [schemaParser, query_generator, syntax_checker, schema_validator,
   performance_reviewer, query_refiner, documentation_generator]

/-- The `workflow = (WorkflowBuilder()...build())` declaration of
`query_generator_workflow/workflow.py`, transcribed call for call. -/
def workflow : Workflow QExec :=
  (((((WorkflowBuilder.empty.set_start_executor
        QExec.schemaParser).add_edge
        QExec.schemaParser QExec.query_generator).add_fan_out_edges
        QExec.query_generator
        [QExec.syntax_checker, QExec.schema_validator,
         QExec.performance_reviewer]).add_fan_in_edges
        [QExec.syntax_checker, QExec.schema_validator,
         QExec.performance_reviewer]
        QExec.validation_aggregator).add_edge
        QExec.validation_aggregator QExec.query_refiner).add_edge
        QExec.query_refiner QExec.documentation_generator
    |>.build

/-- The `serve(entities=[workflow], port=8090, auto_open=True)` call made
by `main()` in `query_generator_workflow/workflow.py`. -/
def main : ServeCall (Workflow QExec) :=
  ⟨[workflow], 8090, true⟩

end QueryGeneratorWorkflow

namespace StoryWorkflow

/-- The executors declared in `story_workflow/workflow.py`, named after
the module-level bindings that hold them. -/
inductive SExec where
  | plot_designer
  | character_creator
  | scene_writer
  | story_polisher
deriving DecidableEq, Repr

/-- The single `AzureOpenAIChatClient()` constructed at the top of
`story_workflow/workflow.py`. -/
def chat_client : AzureOpenAIChatClient := ⟨1⟩

/-- `plot_designer = ChatAgent(...)`. -/
def plot_designer : ChatAgent :=
  ⟨"PlotDesigner", "An agent that creates story plots and structures",
   chat_client⟩

/-- `character_creator = ChatAgent(...)`. -/
def character_creator : ChatAgent :=
  ⟨"CharacterCreator", "An agent that develops compelling characters",
   chat_client⟩

/-- `scene_writer = ChatAgent(...)`. -/
def scene_writer : ChatAgent :=
  ⟨"SceneWriter", "An agent that writes engaging story scenes",
   chat_client⟩

/-- `story_polisher = ChatAgent(...)`. -/
def story_polisher : ChatAgent :=
  ⟨"StoryPolisher", "An agent that adds final polish and improvements",
   chat_client⟩

/-- The `ChatAgent` constructions of the story module, in source order. -/
def agents : List ChatAgent :=
  [plot_designer, character_creator, scene_writer, story_polisher]

/-- The `workflow = (WorkflowBuilder()...build())` declaration of
`story_workflow/workflow.py`, transcribed call for call. -/
def workflow : Workflow SExec :=
  (((WorkflowBuilder.empty.set_start_executor
      SExec.plot_designer).add_edge
      SExec.plot_designer SExec.character_creator).add_edge
      SExec.character_creator SExec.scene_writer).add_edge
      SExec.scene_writer SExec.story_polisher
    |>.build

/-- The `serve(entities=[workflow], port=8090, auto_open=True)` call made
by `main()` in `story_workflow/workflow.py`. -/
def main : ServeCall (Workflow SExec) :=
  ⟨[workflow], 8090, true⟩

end StoryWorkflow

namespace WeatherAgent

/-- `agent = ChatAgent(...)` from `weather_agent/agent.py`; its chat
client is constructed inline by `AzureOpenAIChatClient()`, a construction
site distinct from the two workflow modules'. -/
def agent : ChatAgent :=
  ⟨"WeatherAgent",
   "A helpful agent that provides weather information and current time",
   ⟨2⟩⟩

/-- The `ChatAgent` constructions of the weather module: just `agent`. -/
def agents : List ChatAgent := [agent]

end WeatherAgent

/-- One Python assignment statement, for the construction-once claim:
its target name, whether it is a module-level statement (executed at
module load) as opposed to one inside a function, method or loop body,
and whether its right-hand side constructs a new agent, workflow or chat
client object (as opposed to binding a local value or aliasing an
existing object). -/
structure PyAssign where
  target : String
  toplevel : Bool
  constructs : Bool
deriving DecidableEq, Repr

/-- Every assignment statement of
`query_generator_workflow/workflow.py`, in source order, nested bodies
included (`aggregate`'s locals and its `for` target `r`, and `main`'s
`logger`). -/
def queryModuleAssigns : List PyAssign :=
  [⟨"chat_client", true, true⟩,
   ⟨"schema_parser", true, true⟩,
   ⟨"query_generator", true, true⟩,
   ⟨"syntax_checker", true, true⟩,
   ⟨"schema_validator", true, true⟩,
   ⟨"performance_reviewer", true, true⟩,
   ⟨"validations", false, false⟩,
   ⟨"r", false, false⟩,
   ⟨"validator_name", false, false⟩,
   ⟨"text", false, false⟩,
   ⟨"combined", false, false⟩,
   ⟨"summary", false, false⟩,
   ⟨"validation_aggregator", true, true⟩,
   ⟨"query_refiner", true, true⟩,
   ⟨"documentation_generator", true, true⟩,
   ⟨"workflow", true, true⟩,
   ⟨"logger", false, false⟩]

/-- Every assignment statement of `story_workflow/workflow.py`, in
source order, nested bodies included (`main`'s `logger`). -/
def storyModuleAssigns : List PyAssign :=
  [⟨"chat_client", true, true⟩,
   ⟨"plot_designer", true, true⟩,
   ⟨"character_creator", true, true⟩,
   ⟨"scene_writer", true, true⟩,
   ⟨"story_polisher", true, true⟩,
   ⟨"workflow", true, true⟩,
   ⟨"logger", false, false⟩]

/-- Every assignment statement of `weather_agent/agent.py`, in source
order, nested bodies included (`get_weather`'s `conditions` and
`get_time`'s `current_time`). -/
def weatherModuleAssigns : List PyAssign :=
  [⟨"conditions", false, false⟩,
   ⟨"current_time", false, false⟩,
   ⟨"agent", true, true⟩]

/-- Every assignment-like binding of
`query_generator_workflow/__init__.py`: the single
`from .workflow import workflow`, a module-level alias of the
already-built object, constructing nothing. -/
def queryInitAssigns : List PyAssign :=
  [⟨"workflow", true, false⟩]

/-- The agent, workflow and chat-client bindings of the query-generator
module. -/
def queryObjectBindings : List String :=
  ["chat_client", "schema_parser", "query_generator", "syntax_checker",
   "schema_validator", "performance_reviewer", "validation_aggregator",
   "query_refiner", "documentation_generator", "workflow"]

/-- The agent, workflow and chat-client bindings of the story module. -/
def storyObjectBindings : List String :=
  ["chat_client", "plot_designer", "character_creator", "scene_writer",
   "story_polisher", "workflow"]

/-- The agent bindings of the weather module. -/
def weatherObjectBindings : List String := ["agent"]

/-- `n` is bound by exactly one assignment statement of module `m`, and
that statement is a module-level constructor. -/
def constructedOnceAtToplevel (m : List PyAssign) (n : String) : Bool :=
  decide ((m.filter fun a => a.target == n).length = 1) &&
    (m.filter fun a => a.target == n).all fun a => a.toplevel && a.constructs

/-- A left fold that pushes `f r` onto the accumulator computes the
accumulator followed by the map of `f`: the loop shape of `aggregate`. -/
theorem foldl_push_eq_map {α β : Type} (f : α → β) :
    ∀ (l : List α) (acc : List β),
      l.foldl (fun a r => a ++ [f r]) acc = acc ++ l.map f := by
  intro l
  induction l with
  | nil => intro acc; simp
  | cons x xs ih => intro acc; simp [List.foldl_cons, ih]

/-- Every element of the joined list occurs contiguously inside the
Python join of that list. -/
theorem mem_pyJoin_sub (sep : String) :
    ∀ (l : List String) (s : String), s ∈ l →
      ∃ u v : List Char, (pyJoin sep l).data = u ++ s.data ++ v := by
  intro l
  induction l with
  | nil => intro s hs; cases hs
  | cons a rest ih =>
    intro s hs
    cases rest with
    | nil =>
      rcases List.mem_singleton.mp hs with rfl
      exact ⟨[], [], by simp [pyJoin]⟩
    | cons b rest2 =>
      rcases List.mem_cons.mp hs with rfl | hmem
      · exact ⟨[], sep.data ++ (pyJoin sep (b :: rest2)).data,
          by simp [pyJoin, String.data_append]⟩
      · rcases ih s hmem with ⟨u, v, hu⟩
        exact ⟨a.data ++ sep.data ++ u, v,
          by simp [pyJoin, String.data_append, hu]⟩

/-- Closed form of `aggregate`: the single sent message is the summary
header, the join of the per-response formatted entries in input order,
and the trailing blank lines. -/
theorem aggregate_eq (results : List AgentExecutorResponse) :
    ValidationAggregator.aggregate results =
      ["=== VALIDATION SUMMARY ===\n\n"
        ++ pyJoin "\n\n" (results.map formatValidation) ++ "\n\n"] := by
  have h := foldl_push_eq_map formatValidation results []
  simp only [formatValidation, List.nil_append] at h
  simp only [ValidationAggregator.aggregate, h, formatValidation]

/-- C1: for every list of agent responses, `ValidationAggregator.aggregate`
sends exactly one summary string, and that summary contains, for each
input response, a contiguous entry consisting of the response's executor
id with underscores replaced by spaces and title-cased, followed by the
response's text; the summary is built purely by formatting and
concatenating the responses' already-computed texts. -/
theorem aggregate_sends_single_summary_containing_each_validation
    (results : List AgentExecutorResponse) :
    (ValidationAggregator.aggregate results).length = 1 ∧
    ∀ r ∈ results, ∃ u v : List Char,
      ((ValidationAggregator.aggregate results).headI).data
        = u ++ (formatValidation r).data ++ v := by
  constructor
  · rw [aggregate_eq]; rfl
  · intro r hr
    rw [aggregate_eq]
    rcases mem_pyJoin_sub "\n\n" (results.map formatValidation)
        (formatValidation r) (List.mem_map_of_mem _ hr) with ⟨u, v, huv⟩
    refine ⟨("=== VALIDATION SUMMARY ===\n\n").data ++ u,
      v ++ ("\n\n").data, ?_⟩
    simp [String.data_append, huv, List.headI]

/-- Witness for C1 at a concrete two-response input. -/
theorem aggregate_sends_single_summary_witness :
    (ValidationAggregator.aggregate
        [⟨"syntax_checker", ⟨"Status: VALID"⟩⟩,
         ⟨"schema_validator", ⟨"Mismatches: None"⟩⟩]).length = 1 ∧
    ∃ u v : List Char,
      ((ValidationAggregator.aggregate
          [⟨"syntax_checker", ⟨"Status: VALID"⟩⟩,
           ⟨"schema_validator", ⟨"Mismatches: None"⟩⟩]).headI).data
        = u ++ (formatValidation ⟨"syntax_checker", ⟨"Status: VALID"⟩⟩).data ++ v :=
  ⟨(aggregate_sends_single_summary_containing_each_validation
      [⟨"syntax_checker", ⟨"Status: VALID"⟩⟩,
       ⟨"schema_validator", ⟨"Mismatches: None"⟩⟩]).1,
   (aggregate_sends_single_summary_containing_each_validation
      [⟨"syntax_checker", ⟨"Status: VALID"⟩⟩,
       ⟨"schema_validator", ⟨"Mismatches: None"⟩⟩]).2
     ⟨"syntax_checker", ⟨"Status: VALID"⟩⟩ (by simp)⟩

/-- C2: the query generator workflow's declared topology is exactly the
fan-out/fan-in graph of the claim: start at the schema parser; schema
parser to query generator; fan-out from the query generator to exactly
the syntax checker, schema validator and performance reviewer; fan-in
from those three validators to the validation aggregator; then aggregator
to query refiner and query refiner to documentation generator. -/
theorem query_generator_workflow_topology :
    QueryGeneratorWorkflow.workflow.start
        = some QueryGeneratorWorkflow.QExec.schemaParser ∧
    QueryGeneratorWorkflow.workflow.edges =
      [(QueryGeneratorWorkflow.QExec.schemaParser,
        QueryGeneratorWorkflow.QExec.query_generator),
       (QueryGeneratorWorkflow.QExec.query_generator,
        QueryGeneratorWorkflow.QExec.syntax_checker),
       (QueryGeneratorWorkflow.QExec.query_generator,
        QueryGeneratorWorkflow.QExec.schema_validator),
       (QueryGeneratorWorkflow.QExec.query_generator,
        QueryGeneratorWorkflow.QExec.performance_reviewer),
       (QueryGeneratorWorkflow.QExec.syntax_checker,
        QueryGeneratorWorkflow.QExec.validation_aggregator),
       (QueryGeneratorWorkflow.QExec.schema_validator,
        QueryGeneratorWorkflow.QExec.validation_aggregator),
       (QueryGeneratorWorkflow.QExec.performance_reviewer,
        QueryGeneratorWorkflow.QExec.validation_aggregator),
       (QueryGeneratorWorkflow.QExec.validation_aggregator,
        QueryGeneratorWorkflow.QExec.query_refiner),
       (QueryGeneratorWorkflow.QExec.query_refiner,
        QueryGeneratorWorkflow.QExec.documentation_generator)] :=
  ⟨rfl, rfl⟩

/-- C3: the story workflow is a purely linear chain of the four agents:
start at the plot designer, edges plot designer to character creator to
scene writer to story polisher, and no executor is the source or the
target of two edges (no fan-out, no fan-in). -/
theorem story_workflow_is_linear_chain :
    StoryWorkflow.workflow.start = some StoryWorkflow.SExec.plot_designer ∧
    StoryWorkflow.workflow.edges =
      [(StoryWorkflow.SExec.plot_designer,
        StoryWorkflow.SExec.character_creator),
       (StoryWorkflow.SExec.character_creator,
        StoryWorkflow.SExec.scene_writer),
       (StoryWorkflow.SExec.scene_writer,
        StoryWorkflow.SExec.story_polisher)] ∧
    (StoryWorkflow.workflow.edges.map Prod.fst).Nodup ∧
    (StoryWorkflow.workflow.edges.map Prod.snd).Nodup := by
  refine ⟨rfl, rfl, ?_, ?_⟩ <;> decide

/-- C4: within each source file, every declared agent is constructed
with the same chat client instance: the seven query-generator agents all
carry that module's single client, the four story agents all carry that
module's single client, and the weather module's single agent trivially
shares its own client. -/
theorem agents_share_single_chat_client_per_file :
    QueryGeneratorWorkflow.agents.map ChatAgent.chat_client
        = List.replicate 7 QueryGeneratorWorkflow.chat_client ∧
    StoryWorkflow.agents.map ChatAgent.chat_client
        = List.replicate 4 StoryWorkflow.chat_client ∧
    WeatherAgent.agents.map ChatAgent.chat_client
        = List.replicate 1 WeatherAgent.agent.chat_client :=
  ⟨rfl, rfl, rfl⟩

/-- C5: each workflow module's `main` calls `serve` with exactly the
module's workflow object as the only entity, on port 8090, with
`auto_open` enabled. -/
theorem main_serves_workflow_on_port_8090 :
    QueryGeneratorWorkflow.main.entities = [QueryGeneratorWorkflow.workflow] ∧
    QueryGeneratorWorkflow.main.port = 8090 ∧
    QueryGeneratorWorkflow.main.auto_open = true ∧
    StoryWorkflow.main.entities = [StoryWorkflow.workflow] ∧
    StoryWorkflow.main.port = 8090 ∧
    StoryWorkflow.main.auto_open = true :=
  ⟨rfl, rfl, rfl, rfl, rfl, rfl⟩

/-- C6: every agent, workflow and chat-client binding of the three code
modules is the target of exactly one assignment statement, and that
statement is a module-level constructor, so no statement outside the
module-level constructors writes to any of these bindings; the package
`__init__` binds `workflow` once, at module level, as an alias that
constructs nothing. -/
theorem objects_constructed_once_at_module_load :
    queryObjectBindings.all
        (constructedOnceAtToplevel queryModuleAssigns) = true ∧
    storyObjectBindings.all
        (constructedOnceAtToplevel storyModuleAssigns) = true ∧
    weatherObjectBindings.all
        (constructedOnceAtToplevel weatherModuleAssigns) = true ∧
    (queryInitAssigns.filter fun a => a.target == "workflow").length = 1 ∧
    queryInitAssigns.all (fun a => a.toplevel && !a.constructs) = true := by
  decide

/-- C7: `ValidationAggregator.aggregate` is total: on every input list of
agent responses it terminates normally, sending exactly one message
(every operation it performs is total, so nothing raises). -/
theorem aggregate_never_raises (results : List AgentExecutorResponse) :
    (ValidationAggregator.aggregate results).length = 1 := by
  rw [aggregate_eq]
  rfl

/-- C9: `aggregate` preserves order and multiplicity: the single sent
summary carries exactly one formatted entry per input response, joined in
exactly the input order (the entry list is the map of the formatter over
the input list). -/
theorem aggregate_preserves_order_and_multiplicity
    (results : List AgentExecutorResponse) :
    ValidationAggregator.aggregate results =
      ["=== VALIDATION SUMMARY ===\n\n"
        ++ pyJoin "\n\n" (results.map formatValidation) ++ "\n\n"] :=
  aggregate_eq results

/-- C10: on the empty result list, `aggregate` still sends exactly one
message: the bare header followed by the blank lines, with no validator
entries. -/
theorem aggregate_empty_results_summary :
    ValidationAggregator.aggregate [] =
      ["=== VALIDATION SUMMARY ===\n\n\n\n"] := by
  decide

/-- C8: for every location and every pair of draws within the documented
`randint` ranges (`randint(0, 3)` and `randint(10, 30)` are inclusive on
both ends), `get_weather` succeeds — the index into the four-element
conditions list is in bounds — and returns exactly the string
"The weather in {location} is {condition} with a high of {n}°C." with
the condition drawn from the four-element list and `n` between 10 and 30
inclusive. -/
theorem get_weather_output_form (location : String) (c t : Nat)
    (hc : c ≤ 3) (ht1 : 10 ≤ t) (ht2 : t ≤ 30) :
    ∃ cond ∈ WeatherAgent.conditions,
      WeatherAgent.get_weather location c t =
        some ("The weather in " ++ location ++ " is " ++ cond
          ++ " with a high of " ++ toString t ++ "°C.")
      ∧ 10 ≤ t ∧ t ≤ 30 := by
  interval_cases c
  · exact ⟨"sunny", by decide, rfl, ht1, ht2⟩
  · exact ⟨"cloudy", by decide, rfl, ht1, ht2⟩
  · exact ⟨"rainy", by decide, rfl, ht1, ht2⟩
  · exact ⟨"stormy", by decide, rfl, ht1, ht2⟩

/-- Witness for C8 at location "Paris" with draws 2 and 25. -/
theorem get_weather_output_form_witness :
    ∃ cond ∈ WeatherAgent.conditions,
      WeatherAgent.get_weather "Paris" 2 25 =
        some ("The weather in " ++ "Paris" ++ " is " ++ cond
          ++ " with a high of " ++ toString 25 ++ "°C.")
      ∧ 10 ≤ 25 ∧ 25 ≤ 30 :=
  get_weather_output_form "Paris" 2 25 (by decide) (by decide) (by decide)
